import Mathlib

/-
Verification of the veri-face batch face-matching pipeline (src/app.py).

The embedding abstracts the black-box capabilities exactly as the code treats
them: raw image bytes (type B), decoded pixel arrays (type A) and face
embeddings (type E) are type parameters; the face-distance metric is a
parameter function into the rationals; decode, encoder and network calls are
oracles returning Except or Option values, mirroring which Python calls can
raise and which are caught.  Everything downstream of those oracles is
translated line by line from src/app.py.
-/

deriving instance DecidableEq for Except

namespace VeriFace

/-- Distance threshold used by the match decision; the source literal is 0.6
(src/app.py lines 184 and 223).  It is given here in reduced form 3/5 so that
comparisons against it evaluate inside the kernel; the lemma
threshold_eq_point_six identifies it with the literal 0.6. -/
def THRESHOLD : ℚ := ⟨3, 5, by norm_num, by norm_num⟩

theorem threshold_eq_point_six : THRESHOLD = 0.6 := by
  apply Rat.ext <;> norm_num [THRESHOLD]

/-- Model of Python str.lower, mapping every character to lower case
(src/app.py line 81: filename = file.filename.lower()). -/
def py_lower (s : String) : String := ⟨s.data.map Char.toLower⟩

/-- Model of Python str.endswith: the suffix test on the character sequence
(src/app.py line 82: filename.endswith(ext)). -/
def py_endswith (s suffix : String) : Bool := suffix.data.isSuffixOf s.data

/-- ALLOWED_EXTENSIONS from src/app.py line 57. -/
def ALLOWED_EXTENSIONS : List String := [".png", ".jpg", ".jpeg", ".heic"]

/-- MAX_FILE_SIZE from src/app.py line 58: 10 MiB. -/
def MAX_FILE_SIZE : Nat := 10 * 1024 * 1024

/-- An uploaded file part as compare_faces_local sees it: its filename, its
size, and the result of file.read() (which can raise, hence Except). -/
structure UploadedFile (B : Type) where
  filename : String
  size : Nat
  content : Except Unit B
deriving DecidableEq

/-- A Google Drive file entry as listed by download_drive_images, a dict with
keys id and name (src/app.py line 146), together with the outcome of the
chunked download of its bytes (src/app.py lines 171-178, may raise). -/
structure DriveFile (B : Type) where
  id : String
  name : String
  download : Except Unit B
deriving DecidableEq

/-- An element of the unmatched list produced by compare_faces.  The per-item
loop appends the file name string (src/app.py lines 189 and 192), while the
Drive-auth-failure branch returns the whole drive_files list, so its entries
are the full file records (src/app.py line 164).  Python lists are
heterogeneous; this sum type records which of the two shapes each entry has. -/
inductive UnmatchedEntry (B : Type) where
  | name (s : String)
  | record (f : DriveFile B)
deriving DecidableEq

/-- Per-item outcome of one iteration of the compare_faces_local loop.
invalid is the validation-failure branch, which hits a continue statement;
matchedWith d is the append to matched; unmatchedItem covers a processed
item with no match as well as the except branch (src/app.py lines 210-231). -/
inductive LocalOutcome (B : Type) where
  | invalid
  | matchedWith (img_data : B)
  | unmatchedItem
deriving DecidableEq

/-- Response delivered by the POST branch of the index route: either the
in-memory ZIP sent with send_file (src/app.py lines 294-299) or a rendered
error page (the error= branches of index). -/
inductive IndexResponse (B : Type) where
  | zipAttachment (entries : List (String × B))
  | errorPage (msg : String)
deriving DecidableEq

section Model

variable {A B E R : Type}

/-- validate_file from src/app.py lines 80-89: lower-case the filename, check
it ends with an allowed extension, then check the size is not above
MAX_FILE_SIZE; returns the (ok, reason) pair the source returns. -/
def validate_file (f : UploadedFile B) : Bool × String :=
  let filename := py_lower f.filename
  if ! ALLOWED_EXTENSIONS.any (fun ext => py_endswith filename ext) then
    (false, "Unsupported file type")
  else if MAX_FILE_SIZE < f.size then
    (false, "File exceeds size limit")
  else
    (true, "")

/-- The retry decorator from src/app.py lines 61-77, specialised to catching
every exception.  The attempts oracle gives the outcome of the k-th call of
the wrapped function.  While more than one try remains, an ok result is
returned and an exception consumes one try; the last try is returned as is,
exception included. -/
def retry_go (f : Nat → Except Unit R) : Nat → Nat → Except Unit R
  | k, 0 => f k
  | k, 1 => f k
  | k, t + 2 =>
    match f k with
    | .ok r => .ok r
    | .error _ => retry_go f (k + 1) (t + 1)

/-- retry(tries) applied to a function: start at attempt 0 with the full try
budget. -/
def retry_run (tries : Nat) (f : Nat → Except Unit R) : Except Unit R :=
  retry_go f 0 tries

/-- The body of load_image_any_format (src/app.py lines 110-116): try the
decode; on any exception return None.  The body itself never raises. -/
def load_image_body (attempt : Except Unit A) : Option A :=
  match attempt with
  | .ok img => some img
  | .error _ => none

/-- load_image_any_format from src/app.py lines 109-116: the decode body
wrapped in the retry decorator with tries = 2.  attempts k is the outcome of
the k-th underlying decode. -/
def load_image_any_format (attempts : Nat → Except Unit A) : Except Unit (Option A) :=
  retry_run 2 (fun k => .ok (load_image_body (attempts k)))

/-- extract_face_encodings from src/app.py lines 118-126: None input gives
the empty list; an encoder exception is caught and gives the empty list;
otherwise the encoder output is returned.  enc is the black-box
face_locations/face_encodings capability. -/
def extract_face_encodings (enc : A → Except Unit (List E)) : Option A → List E
  | none => []
  | some img =>
    match enc img with
    | .ok encs => encs
    | .error _ => []

/-- face_recognition.face_distance applied to the reference encodings and one
candidate encoding: the list of distances of the candidate encoding to each
reference encoding (src/app.py lines 183 and 222). -/
def face_distance (dist : E → E → ℚ) (ref_enc : List E) (e : E) : List ℚ :=
  ref_enc.map (fun r => dist r e)

/-- The test guarding the matched append: any distance strictly below the
threshold (src/app.py lines 184 and 223, literal 0.6). -/
def enc_matches (dist : E → E → ℚ) (ref_enc : List E) (e : E) : Bool :=
  (face_distance dist ref_enc e).any (fun d => decide (d < THRESHOLD))

/-- The inner for-loop over the candidate encodings (src/app.py lines
182-187 and 221-226): scan the candidate encodings in order and stop at the
first one whose distance test succeeds (the break); none means found_match
stayed False. -/
def find_match (dist : E → E → ℚ) (ref_enc : List E) : List E → Option E
  | [] => none
  | e :: rest =>
    if enc_matches dist ref_enc e then some e
    else find_match dist ref_enc rest

/-- One iteration body of the compare_faces loop for one Drive file
(src/app.py lines 170-192): download the bytes (an exception lands in the
except branch, which appends to unmatched, hence none), decode, extract
encodings, and run the match scan; some img_data means the (name, img_data)
pair is appended to matched. -/
def drive_item (dist : E → E → ℚ) (decode : B → Option A)
    (enc : A → Except Unit (List E)) (ref_enc : List E) (f : DriveFile B) :
    Option B :=
  match f.download with
  | .error _ => none
  | .ok img_data =>
    match find_match dist ref_enc (extract_face_encodings enc (decode img_data)) with
    | some _ => some img_data
    | none => none

/-- The for-loop of compare_faces (src/app.py lines 169-194), collecting the
matched list, the unmatched list and the sequence of progress records sent to
update_firebase_progress, one publish (idx+1, total) after every item. -/
def drive_loop (step : DriveFile B → Option B) (total : Nat) :
    List (DriveFile B) → Nat →
      List (String × B) × List (UnmatchedEntry B) × List (Nat × Nat)
  | [], _ => ([], [], [])
  | f :: rest, idx =>
    let r := drive_loop step total rest (idx + 1)
    match step f with
    | some d => ((f.name, d) :: r.1, r.2.1, (idx + 1, total) :: r.2.2)
    | none => (r.1, .name f.name :: r.2.1, (idx + 1, total) :: r.2.2)

/-- compare_faces from src/app.py lines 152-196.  ref_img is the loader
result on the reference path; auth_ok tells whether get_drive_service
succeeded (its failure is caught at lines 161-164 and returns the whole
drive_files list as unmatched).  The third component is the ordered list of
progress records published to Firebase: the (0, total) publish at line 167
followed by one publish per item. -/
def compare_faces (dist : E → E → ℚ) (decode : B → Option A)
    (enc : A → Except Unit (List E)) (auth_ok : Bool) (ref_img : Option A)
    (drive_files : List (DriveFile B)) :
    List (String × B) × List (UnmatchedEntry B) × List (Nat × Nat) :=
  let ref_enc := extract_face_encodings enc ref_img
  if ref_enc.isEmpty then ([], [], [])
  else if auth_ok then
    let r := drive_loop (drive_item dist decode enc ref_enc) drive_files.length drive_files 0
    (r.1, r.2.1, (0, drive_files.length) :: r.2.2)
  else
    ([], drive_files.map UnmatchedEntry.record, [])

/-- One iteration body of the compare_faces_local loop (src/app.py lines
210-231): validate first; an invalid file is appended to unmatched and hits
continue, so it is a distinct outcome; otherwise read the bytes (an
exception lands in the except branch), decode, extract encodings and run the
match scan. -/
def local_item (dist : E → E → ℚ) (decode : B → Option A)
    (enc : A → Except Unit (List E)) (ref_enc : List E) (f : UploadedFile B) :
    LocalOutcome B :=
  if (validate_file f).1 then
    match f.content with
    | .error _ => .unmatchedItem
    | .ok img_data =>
      match find_match dist ref_enc (extract_face_encodings enc (decode img_data)) with
      | some _ => .matchedWith img_data
      | none => .unmatchedItem
  else
    .invalid

/-- The for-loop of compare_faces_local (src/app.py lines 210-233).  The
invalid branch reaches continue before the progress assignment at line 232,
so no progress record is published for an invalid file; both other branches
publish (idx + 1, total). -/
def local_loop (step : UploadedFile B → LocalOutcome B) (total : Nat) :
    List (UploadedFile B) → Nat →
      List (String × B) × List String × List (Nat × Nat)
  | [], _ => ([], [], [])
  | f :: rest, idx =>
    let r := local_loop step total rest (idx + 1)
    match step f with
    | .invalid => (r.1, f.filename :: r.2.1, r.2.2)
    | .matchedWith d => ((f.filename, d) :: r.1, r.2.1, (idx + 1, total) :: r.2.2)
    | .unmatchedItem => (r.1, f.filename :: r.2.1, (idx + 1, total) :: r.2.2)

/-- compare_faces_local from src/app.py lines 198-235, with the same reading
of ref_img and the same progress-record component as compare_faces. -/
def compare_faces_local (dist : E → E → ℚ) (decode : B → Option A)
    (enc : A → Except Unit (List E)) (ref_img : Option A)
    (uploaded_files : List (UploadedFile B)) :
    List (String × B) × List String × List (Nat × Nat) :=
  let ref_enc := extract_face_encodings enc ref_img
  if ref_enc.isEmpty then ([], [], [])
  else
    let r := local_loop (local_item dist decode enc ref_enc) uploaded_files.length uploaded_files 0
    (r.1, r.2.1, (0, uploaded_files.length) :: r.2.2)

/-- The ZIP-building loop of the index route and of api_match_drive_base64
(src/app.py lines 295-297 and 338-340): for each matched pair the entry
fname with content img_data is written, in order, with the name exactly as
stored in matched. -/
def zip_entries (matched : List (String × B)) : List (String × B) :=
  matched.foldl (fun acc p => acc ++ [(p.1, p.2)]) []

/-- Splitting a character sequence at every slash; helper for basename. -/
def split_slash : List Char → List (List Char)
  | [] => [[]]
  | c :: rest =>
    match split_slash rest with
    | [] => [[]]
    | g :: gs => if c = ('/' : Char) then [] :: g :: gs else (c :: g) :: gs

/-- Bare filename with directory components stripped: the part after the
last slash. -/
def basename (s : String) : String := ⟨(split_slash s.data).getLastD s.data⟩

/-- Packaging as the specification words describe it, for comparison with
zip_entries which is translated from the code: the spec says each archive
entry name is the bare filename of the candidate with directory components
stripped. -/
def spec_zip_entries (matched : List (String × B)) : List (String × B) :=
  matched.map (fun p => (basename p.1, p.2))

/-- The Drive branch of the POST handler of the index route (src/app.py
lines 285-299): run compare_faces, build the in-memory ZIP from matched and
return it with send_file as an attachment.  There is no branch inspecting
the matched/unmatched lists, so the ZIP response is produced
unconditionally; errorPage responses only arise earlier, from input
validation. -/
def index_post (dist : E → E → ℚ) (decode : B → Option A)
    (enc : A → Except Unit (List E)) (auth_ok : Bool) (ref_img : Option A)
    (drive_files : List (DriveFile B)) : IndexResponse B :=
  IndexResponse.zipAttachment
    (zip_entries (compare_faces dist decode enc auth_ok ref_img drive_files).1)

end Model

/-- Concrete distance oracle for witnesses: every pair is at distance 1,
which is not below the threshold. -/
def unitDist : Unit → Unit → ℚ := fun _ _ => 1

/-- Concrete decoder for witnesses: every byte value decodes. -/
def unitDecode : Nat → Option Unit := fun _ => some ()

/-- Concrete encoder for witnesses: every array holds exactly one face. -/
def unitEnc : Unit → Except Unit (List Unit) := fun _ => .ok [()]

/-- Concrete encoder for the zero-face counterexample: no face is ever
detected. -/
def noFaceEnc : Unit → Except Unit (List Unit) := fun _ => .ok []

section Lemmas

variable {A B E : Type}

/-- The inner distance test succeeds exactly when some reference encoding is
strictly closer than the threshold. -/
theorem enc_matches_iff (dist : E → E → ℚ) (ref_enc : List E) (e : E) :
    enc_matches dist ref_enc e = true ↔ ∃ r ∈ ref_enc, dist r e < THRESHOLD := by
  simp [enc_matches, face_distance, List.any_eq_true]

/-- The candidate-encoding scan succeeds exactly when some pair of candidate
encoding and reference encoding is strictly below the threshold. -/
theorem find_match_isSome_iff (dist : E → E → ℚ) (ref_enc : List E) (l : List E) :
    (find_match dist ref_enc l).isSome = true
      ↔ ∃ e ∈ l, ∃ r ∈ ref_enc, dist r e < THRESHOLD := by
  induction l with
  | nil => simp [find_match]
  | cons e rest ih =>
    rw [find_match]
    by_cases h : enc_matches dist ref_enc e = true
    · rw [if_pos h]
      constructor
      · intro _
        exact ⟨e, List.mem_cons_self e rest, (enc_matches_iff dist ref_enc e).mp h⟩
      · intro _
        rfl
    · rw [if_neg h, ih]
      constructor
      · rintro ⟨x, hx, hp⟩
        exact ⟨x, List.mem_cons_of_mem _ hx, hp⟩
      · rintro ⟨x, hx, hp⟩
        rcases List.mem_cons.mp hx with rfl | hx2
        · exact absurd ((enc_matches_iff dist ref_enc x).mpr hp) h
        · exact ⟨x, hx2, hp⟩

/-- The candidate-encoding scan is the first-satisfying search: it returns
exactly the first encoding passing the distance test. -/
theorem find_match_eq_find_first (dist : E → E → ℚ) (ref_enc : List E) (l : List E) :
    find_match dist ref_enc l = l.find? (enc_matches dist ref_enc) := by
  induction l with
  | nil => rfl
  | cons e rest ih =>
    rw [find_match]
    by_cases h : enc_matches dist ref_enc e = true
    · rw [if_pos h, List.find?_cons_of_pos _ h]
    · rw [if_neg h, List.find?_cons_of_neg _ h, ih]

end Lemmas

/-- C1: for every non-empty reference embedding sequence and every candidate
embedding sequence, the scan succeeds if and only if some candidate embedding
has distance strictly below 0.6 to some reference embedding; the scan stops
at the first satisfying candidate embedding; an empty candidate sequence
yields no match; and a pair at distance exactly 0.6 yields no match. -/
theorem C1_match_decision {E : Type} (dist : E → E → ℚ) (ref_enc encs : List E)
    (h : ref_enc ≠ []) :
    ((find_match dist ref_enc encs).isSome = true
        ↔ ∃ e ∈ encs, ∃ r ∈ ref_enc, dist r e < 0.6)
    ∧ find_match dist ref_enc encs = encs.find? (enc_matches dist ref_enc)
    ∧ find_match dist ref_enc ([] : List E) = none
    ∧ ∀ r e, dist r e = 0.6 → find_match dist [r] [e] = none := by
  refine ⟨?_, find_match_eq_find_first dist ref_enc encs, rfl, ?_⟩
  · rw [← threshold_eq_point_six]
    exact find_match_isSome_iff dist ref_enc encs
  · intro r e hre
    have hem : enc_matches dist [r] e = false := by
      simp [enc_matches, face_distance, hre, threshold_eq_point_six]
    simp [find_match, hem]

/-- Witness for C1 at a concrete instance. -/
theorem C1_match_decision_witness :
    (((find_match unitDist [()] [()]).isSome = true
        ↔ ∃ e ∈ [()], ∃ r ∈ [()], unitDist r e < 0.6)
      ∧ find_match unitDist [()] [()] = [()].find? (enc_matches unitDist [()])
      ∧ find_match unitDist [()] ([] : List Unit) = none
      ∧ ∀ r e, unitDist r e = 0.6 → find_match unitDist [r] [e] = none) :=
  C1_match_decision unitDist [()] [()] (by decide)

section LoopLemmas

variable {A B E : Type}

/-- The compare_faces loop appends one entry, to matched or to unmatched,
for every file it visits. -/
theorem drive_loop_length (step : DriveFile B → Option B) (total : Nat) :
    ∀ (l : List (DriveFile B)) (idx : Nat),
      (drive_loop step total l idx).1.length
        + (drive_loop step total l idx).2.1.length = l.length := by
  intro l
  induction l with
  | nil => intro idx; rfl
  | cons f rest ih =>
    intro idx
    rw [drive_loop]
    cases hstep : step f with
    | none =>
      have := ih (idx + 1)
      simp only [List.length_cons]
      omega
    | some d =>
      have := ih (idx + 1)
      simp only [List.length_cons]
      omega

/-- The matched list built by the compare_faces loop is exactly the in-order
collection of the per-item results, so each entry of matched is a function of
its own file alone. -/
theorem drive_loop_matched (step : DriveFile B → Option B) (total : Nat) :
    ∀ (l : List (DriveFile B)) (idx : Nat),
      (drive_loop step total l idx).1
        = l.filterMap (fun f => (step f).map (fun d => (f.name, d))) := by
  intro l
  induction l with
  | nil => intro idx; rfl
  | cons f rest ih =>
    intro idx
    rw [drive_loop]
    cases hstep : step f with
    | none => simp [hstep, ih (idx + 1), List.filterMap_cons]
    | some d => simp [hstep, ih (idx + 1), List.filterMap_cons]

/-- The unmatched list built by the compare_faces loop is exactly the
in-order list of names of the files whose per-item result is none. -/
theorem drive_loop_unmatched (step : DriveFile B → Option B) (total : Nat) :
    ∀ (l : List (DriveFile B)) (idx : Nat),
      (drive_loop step total l idx).2.1
        = (l.filter (fun f => (step f).isNone)).map
            (fun f => UnmatchedEntry.name f.name) := by
  intro l
  induction l with
  | nil => intro idx; rfl
  | cons f rest ih =>
    intro idx
    rw [drive_loop]
    cases hstep : step f with
    | none => simp [hstep, ih (idx + 1), List.filter_cons]
    | some d => simp [hstep, ih (idx + 1), List.filter_cons]

/-- The compare_faces_local loop appends one entry, to matched or to
unmatched, for every file it visits, whichever of the three branches the
iteration takes. -/
theorem local_loop_length (step : UploadedFile B → LocalOutcome B) (total : Nat) :
    ∀ (l : List (UploadedFile B)) (idx : Nat),
      (local_loop step total l idx).1.length
        + (local_loop step total l idx).2.1.length = l.length := by
  intro l
  induction l with
  | nil => intro idx; rfl
  | cons f rest ih =>
    intro idx
    rw [local_loop]
    cases hstep : step f with
    | invalid =>
      have := ih (idx + 1)
      simp only [List.length_cons]
      omega
    | matchedWith d =>
      have := ih (idx + 1)
      simp only [List.length_cons]
      omega
    | unmatchedItem =>
      have := ih (idx + 1)
      simp only [List.length_cons]
      omega

/-- The matched list built by the compare_faces_local loop is exactly the
in-order collection of the per-item matchedWith results, so each entry of
matched is a function of its own file alone. -/
theorem local_loop_matched (step : UploadedFile B → LocalOutcome B) (total : Nat) :
    ∀ (l : List (UploadedFile B)) (idx : Nat),
      (local_loop step total l idx).1
        = l.filterMap (fun f =>
            match step f with
            | .matchedWith d => some (f.filename, d)
            | _ => none) := by
  intro l
  induction l with
  | nil => intro idx; rfl
  | cons f rest ih =>
    intro idx
    rw [local_loop]
    cases hstep : step f with
    | invalid => simp [hstep, ih (idx + 1), List.filterMap_cons]
    | matchedWith d => simp [hstep, ih (idx + 1), List.filterMap_cons]
    | unmatchedItem => simp [hstep, ih (idx + 1), List.filterMap_cons]

/-- The unmatched list built by the compare_faces_local loop is exactly the
in-order list of filenames of the files whose per-item outcome is not a
match, whether invalid or processed without a match. -/
theorem local_loop_unmatched (step : UploadedFile B → LocalOutcome B) (total : Nat) :
    ∀ (l : List (UploadedFile B)) (idx : Nat),
      (local_loop step total l idx).2.1
        = l.filterMap (fun f =>
            match step f with
            | .matchedWith _ => none
            | _ => some f.filename) := by
  intro l
  induction l with
  | nil => intro idx; rfl
  | cons f rest ih =>
    intro idx
    rw [local_loop]
    cases hstep : step f with
    | invalid => simp [hstep, ih (idx + 1), List.filterMap_cons]
    | matchedWith d => simp [hstep, ih (idx + 1), List.filterMap_cons]
    | unmatchedItem => simp [hstep, ih (idx + 1), List.filterMap_cons]

/-- Under a non-empty reference encoding set, the matched list of
compare_faces_local is the in-order collection of the per-item matchedWith
results. -/
theorem compare_faces_local_matched_char (dist : E → E → ℚ) (decode : B → Option A)
    (enc : A → Except Unit (List E)) (ref_img : Option A)
    (h : (extract_face_encodings enc ref_img).isEmpty = false)
    (uploaded_files : List (UploadedFile B)) :
    (compare_faces_local dist decode enc ref_img uploaded_files).1
      = uploaded_files.filterMap (fun f =>
          match local_item dist decode enc (extract_face_encodings enc ref_img) f with
          | .matchedWith d => some (f.filename, d)
          | _ => none) := by
  simp [compare_faces_local, h, local_loop_matched]

/-- Under a non-empty reference encoding set, the unmatched list of
compare_faces_local is the in-order list of filenames of the files whose
per-item outcome is not a match. -/
theorem compare_faces_local_unmatched_char (dist : E → E → ℚ) (decode : B → Option A)
    (enc : A → Except Unit (List E)) (ref_img : Option A)
    (h : (extract_face_encodings enc ref_img).isEmpty = false)
    (uploaded_files : List (UploadedFile B)) :
    (compare_faces_local dist decode enc ref_img uploaded_files).2.1
      = uploaded_files.filterMap (fun f =>
          match local_item dist decode enc (extract_face_encodings enc ref_img) f with
          | .matchedWith _ => none
          | _ => some f.filename) := by
  simp [compare_faces_local, h, local_loop_unmatched]

/-- A per-item failure in the local variant, whether reading the file part
raises, the decode yields no array, or the encoder raises, gives a
non-matched per-item outcome: unmatchedItem when the file passes validation,
invalid otherwise. -/
theorem local_item_fail_not_matched (dist : E → E → ℚ) (decode : B → Option A)
    (enc : A → Except Unit (List E)) (ref_enc : List E) (f : UploadedFile B)
    (h : f.content = Except.error ()
        ∨ ∃ d, f.content = Except.ok d
            ∧ (decode d = none ∨ ∃ a, decode d = some a ∧ enc a = Except.error ())) :
    local_item dist decode enc ref_enc f = LocalOutcome.invalid
    ∨ local_item dist decode enc ref_enc f = LocalOutcome.unmatchedItem := by
  by_cases hv : (validate_file f).1 = true
  · right
    rcases h with h | ⟨d, hd, h2⟩
    · simp [local_item, hv, h]
    · rcases h2 with h2 | ⟨a, ha, he⟩
      · simp [local_item, hv, hd, h2, extract_face_encodings, find_match]
      · simp [local_item, hv, hd, ha, he, extract_face_encodings, find_match]
  · left
    simp [local_item, hv]

/-- Under a non-empty reference encoding set and a successful Drive
authentication, the matched list of compare_faces is the in-order collection
of the per-item results. -/
theorem compare_faces_matched_char (dist : E → E → ℚ) (decode : B → Option A)
    (enc : A → Except Unit (List E)) (ref_img : Option A)
    (h : (extract_face_encodings enc ref_img).isEmpty = false)
    (drive_files : List (DriveFile B)) :
    (compare_faces dist decode enc true ref_img drive_files).1
      = drive_files.filterMap (fun f =>
          (drive_item dist decode enc (extract_face_encodings enc ref_img) f).map
            (fun d => (f.name, d))) := by
  simp [compare_faces, h, drive_loop_matched]

/-- Under a non-empty reference encoding set and a successful Drive
authentication, the unmatched list of compare_faces is the in-order list of
names of the files whose per-item result is none. -/
theorem compare_faces_unmatched_char (dist : E → E → ℚ) (decode : B → Option A)
    (enc : A → Except Unit (List E)) (ref_img : Option A)
    (h : (extract_face_encodings enc ref_img).isEmpty = false)
    (drive_files : List (DriveFile B)) :
    (compare_faces dist decode enc true ref_img drive_files).2.1
      = (drive_files.filter (fun f =>
          (drive_item dist decode enc (extract_face_encodings enc ref_img) f).isNone)).map
          (fun f => UnmatchedEntry.name f.name) := by
  simp [compare_faces, h, drive_loop_unmatched]

/-- A per-item failure, whether the download raises, the decode yields no
array, or the encoder raises, gives the per-item result none, which the loop
turns into an unmatched entry. -/
theorem drive_item_fail_none (dist : E → E → ℚ) (decode : B → Option A)
    (enc : A → Except Unit (List E)) (ref_enc : List E) (f : DriveFile B)
    (h : f.download = Except.error ()
        ∨ ∃ d, f.download = Except.ok d
            ∧ (decode d = none ∨ ∃ a, decode d = some a ∧ enc a = Except.error ())) :
    drive_item dist decode enc ref_enc f = none := by
  rcases h with h | ⟨d, hd, h2⟩
  · simp [drive_item, h]
  · rcases h2 with h2 | ⟨a, ha, he⟩
    · simp [drive_item, hd, h2, extract_face_encodings, find_match]
    · simp [drive_item, hd, ha, he, extract_face_encodings, find_match]

end LoopLemmas

/-- C2: for every candidate set, once the pass actually runs (the reference
encoding set is non-empty; with an empty one the engine is in its terminal
no-face state and never enumerates), the number of matched entries plus the
number of unmatched entries equals the number of candidates, in both the
Drive variant (whatever the authentication outcome) and the local variant;
moreover every candidate is placed in exactly one of the two lists exactly
once: each result list equals the in-order selection of the enumerated
candidates whose per-item outcome sends them there, so each candidate
contributes exactly one entry, to exactly one list, and no candidate is
dropped or duplicated. -/
theorem C2_partition_complete {A B E : Type} (dist : E → E → ℚ)
    (decode : B → Option A) (enc : A → Except Unit (List E)) (auth_ok : Bool)
    (ref_img : Option A)
    (h : (extract_face_encodings enc ref_img).isEmpty = false)
    (drive_files : List (DriveFile B)) (uploaded_files : List (UploadedFile B)) :
    ((compare_faces dist decode enc auth_ok ref_img drive_files).1.length
        + (compare_faces dist decode enc auth_ok ref_img drive_files).2.1.length
        = drive_files.length)
    ∧ ((compare_faces_local dist decode enc ref_img uploaded_files).1.length
        + (compare_faces_local dist decode enc ref_img uploaded_files).2.1.length
        = uploaded_files.length)
    ∧ (auth_ok = true →
        (compare_faces dist decode enc auth_ok ref_img drive_files).1
            = drive_files.filterMap (fun f =>
                (drive_item dist decode enc (extract_face_encodings enc ref_img) f).map
                  (fun d => (f.name, d)))
        ∧ (compare_faces dist decode enc auth_ok ref_img drive_files).2.1
            = (drive_files.filter (fun f =>
                (drive_item dist decode enc
                  (extract_face_encodings enc ref_img) f).isNone)).map
                (fun f => UnmatchedEntry.name f.name))
    ∧ (auth_ok = false →
        (compare_faces dist decode enc auth_ok ref_img drive_files).1 = []
        ∧ (compare_faces dist decode enc auth_ok ref_img drive_files).2.1
            = drive_files.map UnmatchedEntry.record)
    ∧ (compare_faces_local dist decode enc ref_img uploaded_files).1
        = uploaded_files.filterMap (fun f =>
            match local_item dist decode enc (extract_face_encodings enc ref_img) f with
            | .matchedWith d => some (f.filename, d)
            | _ => none)
    ∧ (compare_faces_local dist decode enc ref_img uploaded_files).2.1
        = uploaded_files.filterMap (fun f =>
            match local_item dist decode enc (extract_face_encodings enc ref_img) f with
            | .matchedWith _ => none
            | _ => some f.filename) := by
  refine ⟨?_, ?_, ?_, ?_,
    compare_faces_local_matched_char dist decode enc ref_img h uploaded_files,
    compare_faces_local_unmatched_char dist decode enc ref_img h uploaded_files⟩
  · cases auth_ok with
    | false => simp [compare_faces, h]
    | true =>
      simp only [compare_faces, h, Bool.false_eq_true, if_false, if_true]
      exact drive_loop_length _ _ drive_files 0
  · simp only [compare_faces_local, h, Bool.false_eq_true, if_false]
    exact local_loop_length _ _ uploaded_files 0
  · intro ha
    subst ha
    exact ⟨compare_faces_matched_char dist decode enc ref_img h drive_files,
      compare_faces_unmatched_char dist decode enc ref_img h drive_files⟩
  · intro ha
    subst ha
    constructor
    · simp [compare_faces, h]
    · simp [compare_faces, h]

/-- Witness for C2 at a concrete instance. -/
theorem C2_partition_complete_witness :
    ((compare_faces unitDist unitDecode unitEnc true (some ())
        [⟨"id1", "a.jpg", Except.error ()⟩]).1.length
      + (compare_faces unitDist unitDecode unitEnc true (some ())
        [⟨"id1", "a.jpg", Except.error ()⟩]).2.1.length
      = [(⟨"id1", "a.jpg", Except.error ()⟩ : DriveFile Nat)].length)
    ∧ ((compare_faces_local unitDist unitDecode unitEnc (some ())
        [⟨"doc.txt", 0, Except.ok 0⟩]).1.length
      + (compare_faces_local unitDist unitDecode unitEnc (some ())
        [⟨"doc.txt", 0, Except.ok 0⟩]).2.1.length
      = [(⟨"doc.txt", 0, Except.ok 0⟩ : UploadedFile Nat)].length)
    ∧ (true = true →
        (compare_faces unitDist unitDecode unitEnc true (some ())
            [⟨"id1", "a.jpg", Except.error ()⟩]).1
          = [(⟨"id1", "a.jpg", Except.error ()⟩ : DriveFile Nat)].filterMap (fun f =>
              (drive_item unitDist unitDecode unitEnc
                (extract_face_encodings unitEnc (some ())) f).map
                (fun d => (f.name, d)))
        ∧ (compare_faces unitDist unitDecode unitEnc true (some ())
            [⟨"id1", "a.jpg", Except.error ()⟩]).2.1
          = ([(⟨"id1", "a.jpg", Except.error ()⟩ : DriveFile Nat)].filter (fun f =>
              (drive_item unitDist unitDecode unitEnc
                (extract_face_encodings unitEnc (some ())) f).isNone)).map
              (fun f => UnmatchedEntry.name f.name))
    ∧ (true = false →
        (compare_faces unitDist unitDecode unitEnc true (some ())
            [⟨"id1", "a.jpg", Except.error ()⟩]).1 = []
        ∧ (compare_faces unitDist unitDecode unitEnc true (some ())
            [⟨"id1", "a.jpg", Except.error ()⟩]).2.1
          = [(⟨"id1", "a.jpg", Except.error ()⟩ : DriveFile Nat)].map
              UnmatchedEntry.record)
    ∧ (compare_faces_local unitDist unitDecode unitEnc (some ())
          [⟨"doc.txt", 0, Except.ok 0⟩]).1
        = [(⟨"doc.txt", 0, Except.ok 0⟩ : UploadedFile Nat)].filterMap (fun f =>
            match local_item unitDist unitDecode unitEnc
                (extract_face_encodings unitEnc (some ())) f with
            | .matchedWith d => some (f.filename, d)
            | _ => none)
    ∧ (compare_faces_local unitDist unitDecode unitEnc (some ())
          [⟨"doc.txt", 0, Except.ok 0⟩]).2.1
        = [(⟨"doc.txt", 0, Except.ok 0⟩ : UploadedFile Nat)].filterMap (fun f =>
            match local_item unitDist unitDecode unitEnc
                (extract_face_encodings unitEnc (some ())) f with
            | .matchedWith _ => none
            | _ => some f.filename) :=
  C2_partition_complete unitDist unitDecode unitEnc true (some ()) (by decide)
    [⟨"id1", "a.jpg", Except.error ()⟩] [⟨"doc.txt", 0, Except.ok 0⟩]

/-- C3 counterexample: with a reference image in which zero faces are
detected and one enumerated candidate, the index route delivers the empty
ZIP archive as a success attachment; the caller does not receive any "no
face detected" error signal.  This refutes the claim that the caller
receives a distinct terminal error rather than the empty result delivered as
a success. -/
theorem C3_counterexample :
    index_post unitDist unitDecode noFaceEnc true (some ())
        [⟨"id1", "a.jpg", Except.ok 0⟩] = IndexResponse.zipAttachment []
    ∧ index_post unitDist unitDecode noFaceEnc true (some ())
        [⟨"id1", "a.jpg", Except.ok 0⟩]
      ≠ IndexResponse.errorPage "No face detected in the reference image" := by
  decide

/-- C3 amended: if zero faces are detected in the reference image, the pass
terminates immediately, returning matched = [] and unmatched = [] and
publishing no progress record; however the index route then delivers the
empty archive as a success response, so no distinct "no face detected"
signal reaches the caller. -/
theorem C3_no_face_empty_pass {A B E : Type} (dist : E → E → ℚ)
    (decode : B → Option A) (enc : A → Except Unit (List E)) (auth_ok : Bool)
    (ref_img : Option A)
    (h : (extract_face_encodings enc ref_img).isEmpty = true)
    (drive_files : List (DriveFile B)) :
    compare_faces dist decode enc auth_ok ref_img drive_files = ([], [], [])
    ∧ index_post dist decode enc auth_ok ref_img drive_files
        = IndexResponse.zipAttachment [] := by
  have h1 : compare_faces dist decode enc auth_ok ref_img drive_files = ([], [], []) := by
    simp [compare_faces, h]
  refine ⟨h1, ?_⟩
  rw [index_post, h1]
  rfl

/-- Witness for the amended C3 at a concrete instance. -/
theorem C3_no_face_empty_pass_witness :
    compare_faces unitDist unitDecode noFaceEnc true (some ())
        [⟨"id1", "a.jpg", Except.ok 0⟩] = ([], [], [])
    ∧ index_post unitDist unitDecode noFaceEnc true (some ())
        [⟨"id1", "a.jpg", Except.ok 0⟩] = IndexResponse.zipAttachment [] :=
  C3_no_face_empty_pass unitDist unitDecode noFaceEnc true (some ()) (by decide)
    [⟨"id1", "a.jpg", Except.ok 0⟩]

/-- C4: evaluation of compare_faces_local at the failing input.  Two
uploaded files, the first a valid image without a matching face, the second
with a disallowed extension.  The invalid file takes the continue branch of
the loop, which skips the progress assignment, so the published progress
records are (0, 2) and (1, 2) only: the counter never reaches the total even
though the pass completed over both candidates, contradicting the claimed
invariant that current equals total at completion with no skipped
completions. -/
theorem C4_progress_skipped_on_invalid_file :
    compare_faces_local unitDist unitDecode unitEnc (some ())
        [⟨"a.jpg", 0, Except.ok 0⟩, ⟨"doc.txt", 0, Except.ok 0⟩]
      = ([], ["a.jpg", "doc.txt"], [(0, 2), (1, 2)]) := by
  decide

/-- C5 counterexample: packaging the matched list of the claim, the archive
entries keep the full stored names: the entries are named a.jpg and
sub/a.jpg, not both a.jpg, so the code does not strip directory components
as the claim states; the code packaging differs from the spec-worded
packaging at this input. -/
theorem C5_counterexample :
    (zip_entries [("a.jpg", (1 : Nat)), ("sub/a.jpg", 2)]).map Prod.fst
        = ["a.jpg", "sub/a.jpg"]
    ∧ zip_entries [("a.jpg", (1 : Nat)), ("sub/a.jpg", 2)]
        ≠ spec_zip_entries [("a.jpg", (1 : Nat)), ("sub/a.jpg", 2)] := by
  decide

/-- The ZIP-writing fold writes exactly the matched list, in order. -/
theorem zip_entries_eq {B : Type} (matched : List (String × B)) :
    zip_entries matched = matched := by
  suffices hgen : ∀ acc : List (String × B),
      matched.foldl (fun acc p => acc ++ [(p.1, p.2)]) acc = acc ++ matched by
    simpa [zip_entries] using hgen []
  induction matched with
  | nil => intro acc; simp
  | cons p rest ih =>
    intro acc
    simp [List.foldl_cons, ih]

/-- C5 amended: the result archive contains one entry per matched candidate,
in order, whose entry name is the candidate name exactly as recorded in
matched, with directory components kept, and duplicate names are not
deduplicated. -/
theorem C5_zip_entries_amended {B : Type} (matched : List (String × B)) :
    zip_entries matched = matched
    ∧ (zip_entries matched).length = matched.length
    ∧ (zip_entries matched).map Prod.fst = matched.map Prod.fst := by
  refine ⟨zip_entries_eq matched, ?_, ?_⟩ <;> rw [zip_entries_eq]

/-- Attempt oracle with an isolated transient failure: the first decode
attempt raises and every later attempt would succeed. -/
def transientDecode : Nat → Except Unit Nat :=
  fun k => if k = 0 then Except.error () else Except.ok 7

/-- C6 counterexample: on an isolated transient decode failure, where a
retry would succeed and return the image, the loader instead returns the
no-array result at once: the body of load_image_any_format converts the
failure to None before the retry wrapper can observe an exception, so no
retry ever happens.  This refutes the part of the claim that an isolated
decode failure is retried before the loader gives up. -/
theorem C6_counterexample :
    load_image_any_format transientDecode = Except.ok none
    ∧ load_image_any_format transientDecode ≠ Except.ok (some 7) := by
  decide

/-- C6 amended: the loader never propagates a decode failure, and
undecodable input yields the no-array result None rather than an exception;
however no retry is performed: the result is always the ok value of the
first attempt alone, because the body catches every exception and returns
None before the retry wrapper, installed with tries = 2, can see it. -/
theorem C6_loader_amended {A : Type} (attempts : Nat → Except Unit A) :
    load_image_any_format attempts = Except.ok (load_image_body (attempts 0))
    ∧ (attempts 0 = Except.error () → load_image_any_format attempts = Except.ok none)
    ∧ ∀ img, attempts 0 = Except.ok img →
        load_image_any_format attempts = Except.ok (some img) := by
  refine ⟨rfl, ?_, ?_⟩
  · intro h
    simp [load_image_any_format, retry_run, retry_go, load_image_body, h]
  · intro img h
    simp [load_image_any_format, retry_run, retry_go, load_image_body, h]

/-- Witness for the amended C6 at a concrete instance. -/
theorem C6_loader_amended_witness :
    load_image_any_format transientDecode
        = Except.ok (load_image_body (transientDecode 0))
    ∧ (transientDecode 0 = Except.error ()
        → load_image_any_format transientDecode = Except.ok none)
    ∧ ∀ img, transientDecode 0 = Except.ok img →
        load_image_any_format transientDecode = Except.ok (some img) :=
  C6_loader_amended transientDecode

/-- C7: fault isolation of the matching pass, in both variants.  Under a
non-empty reference encoding set (and, for the Drive variant, successful
authentication), if candidate i fails (its download or read raises, its
bytes do not decode, or the encoder raises on its array), then candidate i
itself lands in unmatched and the pass still completes with one entry per
candidate; moreover each pass produces its matched and unmatched lists
pointwise from the per-item results, and for two candidate lists agreeing
everywhere except at the failing index the per-item result of every other
candidate is identical.  The Drive conjuncts come first, then the same
statements for compare_faces_local over the uploaded lists lfiles1 and
lfiles2 with failing index k. -/
theorem C7_fault_isolation {A B E : Type} (dist : E → E → ℚ)
    (decode : B → Option A) (enc : A → Except Unit (List E)) (ref_img : Option A)
    (h : (extract_face_encodings enc ref_img).isEmpty = false)
    (files1 files2 : List (DriveFile B)) (i : Nat) (hi : i < files1.length)
    (hagree : ∀ j, j ≠ i → files1.get? j = files2.get? j)
    (hfail : (files1.get ⟨i, hi⟩).download = Except.error ()
        ∨ ∃ d, (files1.get ⟨i, hi⟩).download = Except.ok d
            ∧ (decode d = none ∨ ∃ a, decode d = some a ∧ enc a = Except.error ()))
    (lfiles1 lfiles2 : List (UploadedFile B)) (k : Nat) (hk : k < lfiles1.length)
    (lagree : ∀ j, j ≠ k → lfiles1.get? j = lfiles2.get? j)
    (lfail : (lfiles1.get ⟨k, hk⟩).content = Except.error ()
        ∨ ∃ d, (lfiles1.get ⟨k, hk⟩).content = Except.ok d
            ∧ (decode d = none ∨ ∃ a, decode d = some a ∧ enc a = Except.error ())) :
    UnmatchedEntry.name (files1.get ⟨i, hi⟩).name
        ∈ (compare_faces dist decode enc true ref_img files1).2.1
    ∧ (compare_faces dist decode enc true ref_img files1).1.length
        + (compare_faces dist decode enc true ref_img files1).2.1.length
        = files1.length
    ∧ (compare_faces dist decode enc true ref_img files1).1
        = files1.filterMap (fun f =>
            (drive_item dist decode enc (extract_face_encodings enc ref_img) f).map
              (fun d => (f.name, d)))
    ∧ (compare_faces dist decode enc true ref_img files1).2.1
        = (files1.filter (fun f =>
            (drive_item dist decode enc (extract_face_encodings enc ref_img) f).isNone)).map
            (fun f => UnmatchedEntry.name f.name)
    ∧ (compare_faces dist decode enc true ref_img files2).1
        = files2.filterMap (fun f =>
            (drive_item dist decode enc (extract_face_encodings enc ref_img) f).map
              (fun d => (f.name, d)))
    ∧ (compare_faces dist decode enc true ref_img files2).2.1
        = (files2.filter (fun f =>
            (drive_item dist decode enc (extract_face_encodings enc ref_img) f).isNone)).map
            (fun f => UnmatchedEntry.name f.name)
    ∧ (∀ j, j ≠ i → ∀ (hj1 : j < files1.length) (hj2 : j < files2.length),
        drive_item dist decode enc (extract_face_encodings enc ref_img)
            (files1.get ⟨j, hj1⟩)
          = drive_item dist decode enc (extract_face_encodings enc ref_img)
            (files2.get ⟨j, hj2⟩))
    ∧ (lfiles1.get ⟨k, hk⟩).filename
        ∈ (compare_faces_local dist decode enc ref_img lfiles1).2.1
    ∧ (compare_faces_local dist decode enc ref_img lfiles1).1.length
        + (compare_faces_local dist decode enc ref_img lfiles1).2.1.length
        = lfiles1.length
    ∧ (compare_faces_local dist decode enc ref_img lfiles1).1
        = lfiles1.filterMap (fun f =>
            match local_item dist decode enc (extract_face_encodings enc ref_img) f with
            | .matchedWith d => some (f.filename, d)
            | _ => none)
    ∧ (compare_faces_local dist decode enc ref_img lfiles1).2.1
        = lfiles1.filterMap (fun f =>
            match local_item dist decode enc (extract_face_encodings enc ref_img) f with
            | .matchedWith _ => none
            | _ => some f.filename)
    ∧ (compare_faces_local dist decode enc ref_img lfiles2).1
        = lfiles2.filterMap (fun f =>
            match local_item dist decode enc (extract_face_encodings enc ref_img) f with
            | .matchedWith d => some (f.filename, d)
            | _ => none)
    ∧ (compare_faces_local dist decode enc ref_img lfiles2).2.1
        = lfiles2.filterMap (fun f =>
            match local_item dist decode enc (extract_face_encodings enc ref_img) f with
            | .matchedWith _ => none
            | _ => some f.filename)
    ∧ ∀ j, j ≠ k → ∀ (hj1 : j < lfiles1.length) (hj2 : j < lfiles2.length),
        local_item dist decode enc (extract_face_encodings enc ref_img)
            (lfiles1.get ⟨j, hj1⟩)
          = local_item dist decode enc (extract_face_encodings enc ref_img)
            (lfiles2.get ⟨j, hj2⟩) := by
  have hstep : drive_item dist decode enc (extract_face_encodings enc ref_img)
      (files1.get ⟨i, hi⟩) = none :=
    drive_item_fail_none dist decode enc _ _ hfail
  have hlstep := local_item_fail_not_matched dist decode enc
    (extract_face_encodings enc ref_img) (lfiles1.get ⟨k, hk⟩) lfail
  refine ⟨?_, ?_, compare_faces_matched_char dist decode enc ref_img h files1,
    compare_faces_unmatched_char dist decode enc ref_img h files1,
    compare_faces_matched_char dist decode enc ref_img h files2,
    compare_faces_unmatched_char dist decode enc ref_img h files2, ?_, ?_, ?_,
    compare_faces_local_matched_char dist decode enc ref_img h lfiles1,
    compare_faces_local_unmatched_char dist decode enc ref_img h lfiles1,
    compare_faces_local_matched_char dist decode enc ref_img h lfiles2,
    compare_faces_local_unmatched_char dist decode enc ref_img h lfiles2, ?_⟩
  · rw [compare_faces_unmatched_char dist decode enc ref_img h files1]
    apply List.mem_map_of_mem
    apply List.mem_filter.mpr
    refine ⟨List.get_mem files1 i hi, ?_⟩
    simp only [Option.isNone_iff_eq_none]
    exact hstep
  · have hlen := drive_loop_length
      (drive_item dist decode enc (extract_face_encodings enc ref_img))
      files1.length files1 0
    simp only [compare_faces, h, Bool.false_eq_true, if_false, if_true]
    exact hlen
  · intro j hj hj1 hj2
    have hq := hagree j hj
    rw [List.get?_eq_get hj1, List.get?_eq_get hj2] at hq
    rw [Option.some_inj.mp hq]
  · rw [compare_faces_local_unmatched_char dist decode enc ref_img h lfiles1]
    apply List.mem_filterMap.mpr
    refine ⟨lfiles1.get ⟨k, hk⟩, List.get_mem lfiles1 k hk, ?_⟩
    rcases hlstep with hs | hs <;> rw [hs]
  · have hlen := local_loop_length
      (local_item dist decode enc (extract_face_encodings enc ref_img))
      lfiles1.length lfiles1 0
    simp only [compare_faces_local, h, Bool.false_eq_true, if_false]
    exact hlen
  · intro j hj hj1 hj2
    have hq := lagree j hj
    rw [List.get?_eq_get hj1, List.get?_eq_get hj2] at hq
    rw [Option.some_inj.mp hq]

/-- Concrete candidate list whose only candidate fails to download. -/
def wfiles1 : List (DriveFile Nat) := [⟨"id1", "a.jpg", Except.error ()⟩]

/-- Concrete candidate list identical to wfiles1 except for the bytes of the
candidate at index 0, whose download now succeeds. -/
def wfiles2 : List (DriveFile Nat) := [⟨"id1", "a.jpg", Except.ok 5⟩]

/-- Concrete uploaded list whose only file fails to read. -/
def wlfiles1 : List (UploadedFile Nat) := [⟨"b.jpg", 0, Except.error ()⟩]

/-- Concrete uploaded list identical to wlfiles1 except for the bytes of the
file at index 0, whose read now succeeds. -/
def wlfiles2 : List (UploadedFile Nat) := [⟨"b.jpg", 0, Except.ok 0⟩]

/-- Witness for C7 at a concrete instance. -/
theorem C7_fault_isolation_witness :
    UnmatchedEntry.name ((wfiles1.get ⟨0, by decide⟩).name)
        ∈ (compare_faces unitDist unitDecode unitEnc true (some ()) wfiles1).2.1
    ∧ (compare_faces unitDist unitDecode unitEnc true (some ()) wfiles1).1.length
        + (compare_faces unitDist unitDecode unitEnc true (some ()) wfiles1).2.1.length
        = wfiles1.length
    ∧ (compare_faces unitDist unitDecode unitEnc true (some ()) wfiles1).1
        = wfiles1.filterMap (fun f =>
            (drive_item unitDist unitDecode unitEnc
              (extract_face_encodings unitEnc (some ())) f).map
              (fun d => (f.name, d)))
    ∧ (compare_faces unitDist unitDecode unitEnc true (some ()) wfiles1).2.1
        = (wfiles1.filter (fun f =>
            (drive_item unitDist unitDecode unitEnc
              (extract_face_encodings unitEnc (some ())) f).isNone)).map
            (fun f => UnmatchedEntry.name f.name)
    ∧ (compare_faces unitDist unitDecode unitEnc true (some ()) wfiles2).1
        = wfiles2.filterMap (fun f =>
            (drive_item unitDist unitDecode unitEnc
              (extract_face_encodings unitEnc (some ())) f).map
              (fun d => (f.name, d)))
    ∧ (compare_faces unitDist unitDecode unitEnc true (some ()) wfiles2).2.1
        = (wfiles2.filter (fun f =>
            (drive_item unitDist unitDecode unitEnc
              (extract_face_encodings unitEnc (some ())) f).isNone)).map
            (fun f => UnmatchedEntry.name f.name)
    ∧ (∀ j, j ≠ 0 → ∀ (hj1 : j < wfiles1.length) (hj2 : j < wfiles2.length),
        drive_item unitDist unitDecode unitEnc
            (extract_face_encodings unitEnc (some ())) (wfiles1.get ⟨j, hj1⟩)
          = drive_item unitDist unitDecode unitEnc
            (extract_face_encodings unitEnc (some ())) (wfiles2.get ⟨j, hj2⟩))
    ∧ (wlfiles1.get ⟨0, by decide⟩).filename
        ∈ (compare_faces_local unitDist unitDecode unitEnc (some ()) wlfiles1).2.1
    ∧ (compare_faces_local unitDist unitDecode unitEnc (some ()) wlfiles1).1.length
        + (compare_faces_local unitDist unitDecode unitEnc (some ()) wlfiles1).2.1.length
        = wlfiles1.length
    ∧ (compare_faces_local unitDist unitDecode unitEnc (some ()) wlfiles1).1
        = wlfiles1.filterMap (fun f =>
            match local_item unitDist unitDecode unitEnc
                (extract_face_encodings unitEnc (some ())) f with
            | .matchedWith d => some (f.filename, d)
            | _ => none)
    ∧ (compare_faces_local unitDist unitDecode unitEnc (some ()) wlfiles1).2.1
        = wlfiles1.filterMap (fun f =>
            match local_item unitDist unitDecode unitEnc
                (extract_face_encodings unitEnc (some ())) f with
            | .matchedWith _ => none
            | _ => some f.filename)
    ∧ (compare_faces_local unitDist unitDecode unitEnc (some ()) wlfiles2).1
        = wlfiles2.filterMap (fun f =>
            match local_item unitDist unitDecode unitEnc
                (extract_face_encodings unitEnc (some ())) f with
            | .matchedWith d => some (f.filename, d)
            | _ => none)
    ∧ (compare_faces_local unitDist unitDecode unitEnc (some ()) wlfiles2).2.1
        = wlfiles2.filterMap (fun f =>
            match local_item unitDist unitDecode unitEnc
                (extract_face_encodings unitEnc (some ())) f with
            | .matchedWith _ => none
            | _ => some f.filename)
    ∧ ∀ j, j ≠ 0 → ∀ (hj1 : j < wlfiles1.length) (hj2 : j < wlfiles2.length),
        local_item unitDist unitDecode unitEnc
            (extract_face_encodings unitEnc (some ())) (wlfiles1.get ⟨j, hj1⟩)
          = local_item unitDist unitDecode unitEnc
            (extract_face_encodings unitEnc (some ())) (wlfiles2.get ⟨j, hj2⟩) :=
  C7_fault_isolation unitDist unitDecode unitEnc (some ()) (by decide)
    wfiles1 wfiles2 0 (by decide)
    (fun j hj => by
      cases j with
      | zero => exact absurd rfl hj
      | succ m => rfl)
    (Or.inl rfl)
    wlfiles1 wlfiles2 0 (by decide)
    (fun j hj => by
      cases j with
      | zero => exact absurd rfl hj
      | succ m => rfl)
    (Or.inl rfl)

/-- C8 counterexample: with one enumerated candidate and a failed Drive
authentication, compare_faces returns the candidate in unmatched as the full
file record, not as a name-only entry; the unmatched list differs from the
list of name-only entries the claim demands. -/
theorem C8_counterexample :
    compare_faces unitDist unitDecode unitEnc false (some ())
        [⟨"id1", "a.jpg", Except.ok 0⟩]
      = ([], [UnmatchedEntry.record ⟨"id1", "a.jpg", Except.ok 0⟩], [])
    ∧ ([UnmatchedEntry.record (⟨"id1", "a.jpg", Except.ok 0⟩ : DriveFile Nat)]
        ≠ [UnmatchedEntry.name (B := Nat) "a.jpg"]) := by
  decide

/-- C8 amended: if Drive authentication fails while the reference encoding
set is non-empty, the pass neither aborts nor raises: it returns with
matched empty and unmatched containing every enumerated candidate, each as
its full listing record rather than reduced to a name-only entry, and no
progress record is published. -/
theorem C8_auth_failure_all_unmatched {A B E : Type} (dist : E → E → ℚ)
    (decode : B → Option A) (enc : A → Except Unit (List E)) (ref_img : Option A)
    (h : (extract_face_encodings enc ref_img).isEmpty = false)
    (drive_files : List (DriveFile B)) :
    compare_faces dist decode enc false ref_img drive_files
      = ([], drive_files.map UnmatchedEntry.record, []) := by
  simp [compare_faces, h]

/-- Witness for the amended C8 at a concrete instance. -/
theorem C8_auth_failure_all_unmatched_witness :
    compare_faces unitDist unitDecode unitEnc false (some ())
        [⟨"id1", "a.jpg", Except.ok 0⟩]
      = ([], [(⟨"id1", "a.jpg", Except.ok 0⟩ : DriveFile Nat)].map
          UnmatchedEntry.record, []) :=
  C8_auth_failure_all_unmatched unitDist unitDecode unitEnc (some ()) (by decide)
    [⟨"id1", "a.jpg", Except.ok 0⟩]

/-- The validity flag of validate_file is the conjunction of the extension
test on the lower-cased filename and the size bound. -/
theorem validate_file_fst {B : Type} (f : UploadedFile B) :
    (validate_file f).1
      = (ALLOWED_EXTENSIONS.any (fun ext => py_endswith (py_lower f.filename) ext)
          && decide (f.size ≤ MAX_FILE_SIZE)) := by
  simp only [validate_file]
  split_ifs with h1 h2
  · simp only [Bool.not_eq_true'] at h1
    simp [h1]
  · have ha : ALLOWED_EXTENSIONS.any
        (fun ext => py_endswith (py_lower f.filename) ext) = true := by
      revert h1
      cases hx : ALLOWED_EXTENSIONS.any (fun ext => py_endswith (py_lower f.filename) ext) <;>
        simp
    have hs : decide (f.size ≤ MAX_FILE_SIZE) = false := by
      simp only [decide_eq_false_iff_not]
      omega
    simp [ha, hs]
  · have ha : ALLOWED_EXTENSIONS.any
        (fun ext => py_endswith (py_lower f.filename) ext) = true := by
      revert h1
      cases hx : ALLOWED_EXTENSIONS.any (fun ext => py_endswith (py_lower f.filename) ext) <;>
        simp
    have hs : decide (f.size ≤ MAX_FILE_SIZE) = true := by
      simp only [decide_eq_true_eq]
      omega
    simp [ha, hs]

/-- C9: an uploaded file is valid exactly when it passes both the extension
allow-list test on its lower-cased name and the 10 MiB size bound; a file
failing either check gets the invalid per-item outcome for every decoder,
encoder, distance and reference-encoding oracle, so none of its bytes reach
the decoder or the encoder, and the loop places it in unmatched immediately,
publishing nothing for it. -/
theorem C9_local_validation {A B E : Type} (f : UploadedFile B) :
    ((validate_file f).1 = true
        ↔ (ALLOWED_EXTENSIONS.any (fun ext => py_endswith (py_lower f.filename) ext) = true
            ∧ f.size ≤ MAX_FILE_SIZE))
    ∧ ((validate_file f).1 = false →
        (∀ (dist : E → E → ℚ) (decode : B → Option A) (enc : A → Except Unit (List E))
            (ref_enc : List E),
          local_item dist decode enc ref_enc f = LocalOutcome.invalid)
        ∧ ∀ (dist : E → E → ℚ) (decode : B → Option A) (enc : A → Except Unit (List E))
            (ref_enc : List E) (total idx : Nat) (rest : List (UploadedFile B)),
          local_loop (local_item dist decode enc ref_enc) total (f :: rest) idx
            = ((local_loop (local_item dist decode enc ref_enc) total rest (idx + 1)).1,
                f.filename ::
                  (local_loop (local_item dist decode enc ref_enc) total rest (idx + 1)).2.1,
                (local_loop (local_item dist decode enc ref_enc) total rest (idx + 1)).2.2)) := by
  constructor
  · rw [validate_file_fst]
    simp [Bool.and_eq_true, decide_eq_true_eq]
  · intro hinv
    have hitem : ∀ (dist : E → E → ℚ) (decode : B → Option A)
        (enc : A → Except Unit (List E)) (ref_enc : List E),
        local_item dist decode enc ref_enc f = LocalOutcome.invalid := by
      intro dist decode enc ref_enc
      simp [local_item, hinv]
    refine ⟨hitem, ?_⟩
    intro dist decode enc ref_enc total idx rest
    rw [local_loop]
    simp only [hitem dist decode enc ref_enc]

/-- Witness for C9 at a concrete instance: a file with a disallowed
extension gets the invalid outcome. -/
theorem C9_local_validation_witness :
    local_item unitDist unitDecode unitEnc [()]
        (⟨"doc.txt", 0, Except.ok 0⟩ : UploadedFile Nat) = LocalOutcome.invalid :=
  ((C9_local_validation ⟨"doc.txt", 0, Except.ok 0⟩).2 (by decide)).1
    unitDist unitDecode unitEnc [()]

/-- C10: the extension check of validate_file accepts exactly the filenames
whose lower-cased form ends in one of .png, .jpg, .jpeg or .heic, so
upper-case and mixed-case extensions are accepted; in particular the file
IMG.JPG passes validation. -/
theorem C10_case_insensitive_extensions :
    (∀ fname : String,
      ALLOWED_EXTENSIONS.any (fun ext => py_endswith (py_lower fname) ext) = true
        ↔ (py_endswith (py_lower fname) ".png" = true
            ∨ py_endswith (py_lower fname) ".jpg" = true
            ∨ py_endswith (py_lower fname) ".jpeg" = true
            ∨ py_endswith (py_lower fname) ".heic" = true))
    ∧ (validate_file (⟨"IMG.JPG", 0, Except.ok 0⟩ : UploadedFile Nat)).1 = true := by
  constructor
  · intro fname
    simp [ALLOWED_EXTENSIONS]
  · decide

end VeriFace
